import Mathlib

set_option maxRecDepth 100000

/-!
Shallow embedding of the PVZTrain hook DLL (src/hook/src): the raw-memory
object accessor and action surface (game.cpp), the state serializer
(state.cpp), the line-oriented command bridge (bridge.cpp), and the
game-loop interceptor (dllmain.cpp).

Target-process memory is modelled as three read views (pointer-, int- and
bool-sized loads at an address); the 32-bit address space is idealised as
unbounded naturals, since no verified claim concerns address wraparound.
Every accessor returns its value together with a trace of effects: the
addresses it dereferenced and the external game routines it invoked
(external calls are fire-and-forget in the source, so only the fact and
arguments of the call are modelled). Socket I/O is abstracted away: the
bridge is modelled as the pure function from one tick's received bytes to
the list of newline-terminated responses sent, exactly as ProcessCommands
computes it.
-/

/-- A snapshot of target-process memory: the value returned by a
pointer-sized, int-sized, or bool-sized load at each address. -/
structure Mem where
  ptrAt : Nat → Nat
  intAt : Nat → Int
  boolAt : Nat → Bool

/-- One observable effect of an accessor: a memory dereference at an
address, or an invocation of an external game routine with its argument
list (this-pointer first where the source passes one). -/
inductive Eff where
  | read : Nat → Eff
  | call : Nat → List Int → Eff
deriving DecidableEq, Repr

/-- Whether an effect is an external routine invocation. -/
def isCall : Eff → Bool
  | Eff.call _ _ => true
  | Eff.read _ => false

/-- The external routine invocations contained in a trace. -/
def callsOf (t : List Eff) : List Eff := t.filter isCall

namespace Addr

def BASE : Nat := 0x6A9EC0
def MAIN_OBJECT : Nat := 0x768
def GAME_UI : Nat := 0x7FC
def SUN : Nat := 0x5560
def WAVE : Nat := 0x557C
def SCENE : Nat := 0x554C

def FUNC_PUT_PLANT : Nat := 0x40D120
def FUNC_SHOVEL : Nat := 0x411060
def FUNC_CHOOSE_CARD : Nat := 0x486030
def FUNC_ROCK : Nat := 0x486D20
def FUNC_MAKE_NEW_BOARD : Nat := 0x44F5F0
def FUNC_ENTER_GAME : Nat := 0x44F560
def FUNC_BACK_TO_MAIN : Nat := 0x44FEB0

def PLANT_ARRAY : Nat := 0xAC
def PLANT_COUNT_MAX : Nat := 0xB0
def PLANT_SIZE : Nat := 0x14C
def P_ROW : Nat := 0x1C
def P_COL : Nat := 0x28
def P_DEAD : Nat := 0x141
def SEED_CHOOSER : Nat := 0x774

end Addr

namespace PVZ

/-- game.cpp GetBase: read the root static cell. -/
def GetBase (m : Mem) : Nat × List Eff :=
  (m.ptrAt Addr.BASE, [Eff.read Addr.BASE])

/-- game.cpp GetBoard: root, null check, then the board slot. -/
def GetBoard (m : Mem) : Nat × List Eff :=
  let rb := GetBase m
  if rb.1 = 0 then (0, rb.2)
  else (m.ptrAt (rb.1 + Addr.MAIN_OBJECT), rb.2 ++ [Eff.read (rb.1 + Addr.MAIN_OBJECT)])

/-- game.cpp GetGameUI: root, null check, then the UI word. -/
def GetGameUI (m : Mem) : Nat × List Eff :=
  let rb := GetBase m
  if rb.1 = 0 then (0, rb.2)
  else (m.ptrAt (rb.1 + Addr.GAME_UI), rb.2 ++ [Eff.read (rb.1 + Addr.GAME_UI)])

/-- game.cpp GetSun. -/
def GetSun (m : Mem) : Int × List Eff :=
  let rb := GetBoard m
  if rb.1 = 0 then (0, rb.2)
  else (m.intAt (rb.1 + Addr.SUN), rb.2 ++ [Eff.read (rb.1 + Addr.SUN)])

/-- game.cpp GetWave. -/
def GetWave (m : Mem) : Int × List Eff :=
  let rb := GetBoard m
  if rb.1 = 0 then (0, rb.2)
  else (m.intAt (rb.1 + Addr.WAVE), rb.2 ++ [Eff.read (rb.1 + Addr.WAVE)])

/-- game.cpp GetScene. -/
def GetScene (m : Mem) : Int × List Eff :=
  let rb := GetBoard m
  if rb.1 = 0 then (0, rb.2)
  else (m.intAt (rb.1 + Addr.SCENE), rb.2 ++ [Eff.read (rb.1 + Addr.SCENE)])

/-- game.cpp IsInGame: the UI word equals 3. -/
def IsInGame (m : Mem) : Bool × List Eff :=
  let ru := GetGameUI m
  (ru.1 == 3, ru.2)

/-- game.cpp IsZombieInHouse: checks the board then unconditionally
returns false (stubbed in the source). -/
def IsZombieInHouse (m : Mem) : Bool × List Eff :=
  let rb := GetBoard m
  if rb.1 = 0 then (false, rb.2) else (false, rb.2)

/-- game.cpp PutPlant: board null check, then invoke Board::AddPlant
with (board, col, row, type, -1); reports true once the call is issued. -/
def PutPlant (m : Mem) (row col type : Int) : Bool × List Eff :=
  let rb := GetBoard m
  if rb.1 = 0 then (false, rb.2)
  else (true, rb.2 ++ [Eff.call Addr.FUNC_PUT_PLANT [(rb.1 : Int), col, row, type, -1]])

/-- The scan loop of game.cpp Shovel: from record index i with the given
fuel, skip dead records, return the address of the first record whose row
and column both match, or 0 when none does; the trace records the
per-record field reads in loop order. -/
def shovelLoop (m : Mem) (plantArray : Nat) (row col : Int) : Nat → Nat → Nat × List Eff
  | _, 0 => (0, [])
  | i, Nat.succ fuel =>
    let addr := plantArray + i * Addr.PLANT_SIZE
    if m.boolAt (addr + Addr.P_DEAD) then
      let r := shovelLoop m plantArray row col (i + 1) fuel
      (r.1, Eff.read (addr + Addr.P_DEAD) :: r.2)
    else if m.intAt (addr + Addr.P_ROW) == row && m.intAt (addr + Addr.P_COL) == col then
      (addr, [Eff.read (addr + Addr.P_DEAD), Eff.read (addr + Addr.P_ROW),
              Eff.read (addr + Addr.P_COL)])
    else
      let r := shovelLoop m plantArray row col (i + 1) fuel
      (r.1, Eff.read (addr + Addr.P_DEAD) :: Eff.read (addr + Addr.P_ROW) ::
            Eff.read (addr + Addr.P_COL) :: r.2)

/-- game.cpp Shovel: resolve board, read the plant array descriptor, fail
when the array is null or the declared capacity nonpositive, clamp the
capacity to 200, scan for the first live (row, col) match, and invoke the
removal routine on the matched record's address. -/
def Shovel (m : Mem) (row col : Int) : Bool × List Eff :=
  let rb := GetBoard m
  if rb.1 = 0 then (false, rb.2)
  else
    let plantArray := m.ptrAt (rb.1 + Addr.PLANT_ARRAY)
    let plantMax := m.intAt (rb.1 + Addr.PLANT_COUNT_MAX)
    let t0 := rb.2 ++ [Eff.read (rb.1 + Addr.PLANT_ARRAY), Eff.read (rb.1 + Addr.PLANT_COUNT_MAX)]
    if plantArray = 0 ∨ plantMax ≤ 0 then (false, t0)
    else
      let r := shovelLoop m plantArray row col 0 (min plantMax 200).toNat
      if r.1 = 0 then (false, t0 ++ r.2)
      else (true, t0 ++ r.2 ++ [Eff.call Addr.FUNC_SHOVEL [(r.1 : Int)]])

/-- game.cpp FireCob: stubbed, always fails without touching memory. -/
def FireCob (_m : Mem) (_x _y : Int) : Bool × List Eff := (false, [])

/-- game.cpp ChooseCard: base null check, UI phase must be 2
(card selection), seed chooser null check, then invoke the selection
routine on the computed card-slot address. -/
def ChooseCard (m : Mem) (type : Int) : Bool × List Eff :=
  let rb := GetBase m
  if rb.1 = 0 then (false, rb.2)
  else
    let ru := GetGameUI m
    let t0 := rb.2 ++ ru.2
    if ru.1 ≠ 2 then (false, t0)
    else
      let seedChooser := m.ptrAt (rb.1 + Addr.SEED_CHOOSER)
      let t1 := t0 ++ [Eff.read (rb.1 + Addr.SEED_CHOOSER)]
      if seedChooser = 0 then (false, t1)
      else (true, t1 ++ [Eff.call Addr.FUNC_CHOOSE_CARD [type * 60 + 0xa4 + (seedChooser : Int)]])

/-- game.cpp Rock: base null check, UI phase must be 2, seed chooser null
check, then invoke the round-start routine (register context not
modelled beyond the fact of the call). -/
def Rock (m : Mem) : Bool × List Eff :=
  let rb := GetBase m
  if rb.1 = 0 then (false, rb.2)
  else
    let ru := GetGameUI m
    let t0 := rb.2 ++ ru.2
    if ru.1 ≠ 2 then (false, t0)
    else
      let seedChooser := m.ptrAt (rb.1 + Addr.SEED_CHOOSER)
      let t1 := t0 ++ [Eff.read (rb.1 + Addr.SEED_CHOOSER)]
      if seedChooser = 0 then (false, t1)
      else (true, t1 ++ [Eff.call Addr.FUNC_ROCK []])

/-- game.cpp MakeNewBoard: base null check then the reset routine. -/
def MakeNewBoard (m : Mem) : Bool × List Eff :=
  let rb := GetBase m
  if rb.1 = 0 then (false, rb.2)
  else (true, rb.2 ++ [Eff.call Addr.FUNC_MAKE_NEW_BOARD [(rb.1 : Int)]])

/-- game.cpp EnterGame: base null check then the mode-entry routine with
(mode, 1). -/
def EnterGame (m : Mem) (mode : Int) : Bool × List Eff :=
  let rb := GetBase m
  if rb.1 = 0 then (false, rb.2)
  else (true, rb.2 ++ [Eff.call Addr.FUNC_ENTER_GAME [mode, 1]])

/-- game.cpp BackToMain: base null check, UI phase must be 3 (in game),
then the back-to-menu routine. -/
def BackToMain (m : Mem) : Bool × List Eff :=
  let rb := GetBase m
  if rb.1 = 0 then (false, rb.2)
  else
    let ru := GetGameUI m
    let t0 := rb.2 ++ ru.2
    if ru.1 ≠ 3 then (false, t0)
    else (true, t0 ++ [Eff.call Addr.FUNC_BACK_TO_MAIN [(rb.1 : Int)]])

end PVZ

namespace State

def TOTAL_WAVE : Nat := 0x5564
def GAME_CLOCK : Nat := 0x5568
def ZOMBIE_ARRAY : Nat := 0x90
def ZOMBIE_COUNT_MAX : Nat := 0x94
def ZOMBIE_SIZE : Nat := 0x15C
def Z_DEAD : Nat := 0xEC

/-- state.h GameStateInfo. -/
structure GameStateInfo where
  sun : Int
  wave : Int
  total_waves : Int
  scene : Int
  game_clock : Int
  in_game : Bool
  zombie_count : Nat
  plant_count : Nat
deriving DecidableEq, Repr

/-- The counting loops of state.cpp GetGameState: from record index i with
the given fuel, count the records whose dead flag is clear, tracing the
flag reads in loop order. -/
def countLive (m : Mem) (arr stride deadOff : Nat) : Nat → Nat → Nat × List Eff
  | _, 0 => (0, [])
  | i, Nat.succ fuel =>
    let addr := arr + i * stride
    let r := countLive m arr stride deadOff (i + 1) fuel
    (if m.boolAt (addr + deadOff) then r.1 else r.1 + 1, Eff.read (addr + deadOff) :: r.2)

/-- The info-gathering part of state.cpp GetGameState: the getters (each
re-resolving the chain), then, when the board resolves, the extra board
fields and the two liveness counts; each count loop runs only when its
array pointer is non-null and its declared capacity is in (0, 200]. -/
def stateInfo (m : Mem) : GameStateInfo × List Eff :=
  let rSun := PVZ.GetSun m
  let rWave := PVZ.GetWave m
  let rScene := PVZ.GetScene m
  let rIn := PVZ.IsInGame m
  let rb := PVZ.GetBoard m
  let t1 := rSun.2 ++ rWave.2 ++ rScene.2 ++ rIn.2 ++ rb.2
  if rb.1 = 0 then
    ({ sun := rSun.1, wave := rWave.1, total_waves := 0, scene := rScene.1,
       game_clock := 0, in_game := rIn.1, zombie_count := 0, plant_count := 0 }, t1)
  else
    let plantArray := m.ptrAt (rb.1 + Addr.PLANT_ARRAY)
    let plantMax := m.intAt (rb.1 + Addr.PLANT_COUNT_MAX)
    let t2 := t1 ++ [Eff.read (rb.1 + TOTAL_WAVE), Eff.read (rb.1 + GAME_CLOCK),
                     Eff.read (rb.1 + Addr.PLANT_ARRAY), Eff.read (rb.1 + Addr.PLANT_COUNT_MAX)]
    let rp := if plantArray ≠ 0 ∧ 0 < plantMax ∧ plantMax ≤ 200 then
                countLive m plantArray Addr.PLANT_SIZE Addr.P_DEAD 0 plantMax.toNat
              else (0, [])
    let zombieArray := m.ptrAt (rb.1 + ZOMBIE_ARRAY)
    let zombieMax := m.intAt (rb.1 + ZOMBIE_COUNT_MAX)
    let t3 := t2 ++ rp.2 ++ [Eff.read (rb.1 + ZOMBIE_ARRAY), Eff.read (rb.1 + ZOMBIE_COUNT_MAX)]
    let rz := if zombieArray ≠ 0 ∧ 0 < zombieMax ∧ zombieMax ≤ 200 then
                countLive m zombieArray ZOMBIE_SIZE Z_DEAD 0 zombieMax.toNat
              else (0, [])
    ({ sun := rSun.1, wave := rWave.1, total_waves := m.intAt (rb.1 + TOTAL_WAVE),
       scene := rScene.1, game_clock := m.intAt (rb.1 + GAME_CLOCK), in_game := rIn.1,
       zombie_count := rz.1, plant_count := rp.1 }, t3 ++ rz.2)

/-- Decimal rendering of an int field, as operator<< prints it. -/
def intToChars (i : Int) : List Char := (toString i).data

/-- Decimal rendering of a count field. -/
def natToChars (n : Nat) : List Char := (toString n).data

/-- Rendering of the in_game boolean, as the source's ternary prints it. -/
def boolToChars (b : Bool) : List Char := if b then "true".data else "false".data

/-- The JSON-like single-line rendering built by state.cpp GetGameState. -/
def renderState (s : GameStateInfo) : List Char :=
  "\x7b\"sun\":".data ++ intToChars s.sun
  ++ ",\"wave\":".data ++ intToChars s.wave
  ++ ",\"total_waves\":".data ++ intToChars s.total_waves
  ++ ",\"scene\":".data ++ intToChars s.scene
  ++ ",\"game_clock\":".data ++ intToChars s.game_clock
  ++ ",\"in_game\":".data ++ boolToChars s.in_game
  ++ ",\"zombie_count\":".data ++ natToChars s.zombie_count
  ++ ",\"plant_count\":".data ++ natToChars s.plant_count
  ++ "\x7d".data

/-- state.cpp GetGameState: gather the info then render it. -/
def GetGameState (m : Mem) : List Char × List Eff :=
  let r := stateInfo m
  (renderState r.1, r.2)

/-- The snapshot rendered when every field is zero and in_game false. -/
def zeroSnapshot : List Char :=
  ("\x7b\"sun\":0,\"wave\":0,\"total_waves\":0,\"scene\":0,\"game_clock\":0," ++
   "\"in_game\":false,\"zombie_count\":0,\"plant_count\":0\x7d").data

end State

namespace Bridge

/-- The classic-locale whitespace set used by istream extraction. -/
def isWsChar (c : Char) : Bool :=
  c = ' ' || c = '\t' || c = '\n' || c = '\x0b' || c = '\x0c' || c = '\r'

/-- Drop leading stream whitespace (the skipws step of operator>>). -/
def skipWs : List Char → List Char
  | [] => []
  | c :: cs => if isWsChar c then skipWs cs else c :: cs

/-- Take the maximal non-whitespace prefix. -/
def takeTok : List Char → List Char × List Char
  | [] => ([], [])
  | c :: cs =>
    if isWsChar c then ([], c :: cs)
    else
      let r := takeTok cs
      (c :: r.1, r.2)

/-- istringstream string extraction: skip whitespace, then read one token
(empty when the stream is exhausted, which sets failbit). -/
def readToken (s : List Char) : List Char × List Char :=
  takeTok (skipWs s)

/-- Take the maximal decimal-digit prefix. -/
def takeDigits : List Char → List Char × List Char
  | [] => ([], [])
  | c :: cs =>
    if '0' ≤ c && c ≤ '9' then
      let r := takeDigits cs
      (c :: r.1, r.2)
    else ([], c :: cs)

/-- Value of a digit string. -/
def digitsToNat (ds : List Char) : Nat :=
  ds.foldl (fun a c => a * 10 + (c.toNat - 48)) 0

/-- istringstream int extraction: skip whitespace, optional sign, at least
one decimal digit, stopping at the first non-digit; out-of-range values
set failbit (C++11 num_get), modelled as a parse failure. -/
def readInt (s : List Char) : Option (Int × List Char) :=
  match skipWs s with
  | '-' :: rest =>
    let r := takeDigits rest
    if r.1 = [] then none
    else
      let v : Int := -(digitsToNat r.1 : Int)
      if v < -2147483648 then none else some (v, r.2)
  | '+' :: rest =>
    let r := takeDigits rest
    if r.1 = [] then none
    else
      let v : Int := (digitsToNat r.1 : Int)
      if v > 2147483647 then none else some (v, r.2)
  | other =>
    let r := takeDigits other
    if r.1 = [] then none
    else
      let v : Int := (digitsToNat r.1 : Int)
      if v > 2147483647 then none else some (v, r.2)

/-- Two chained int extractions, failing if either fails. -/
def readInt2 (s : List Char) : Option (Int × Int × List Char) :=
  match readInt s with
  | none => none
  | some r1 =>
    match readInt r1.2 with
    | none => none
    | some r2 => some (r1.1, r2.1, r2.2)

/-- Three chained int extractions, failing if any fails. -/
def readInt3 (s : List Char) : Option (Int × Int × Int × List Char) :=
  match readInt s with
  | none => none
  | some r1 =>
    match readInt2 r1.2 with
    | none => none
    | some r2 => some (r1.1, r2.1, r2.2.1, r2.2.2)

/-- bridge.cpp ProcessCommand: extract the verb token, parse the verb's
integer arguments, dispatch to the PVZ surface, and produce the
newline-terminated response; unknown verbs and failed argument parses
produce the documented ERR responses. -/
def ProcessCommand (m : Mem) (cmd : List Char) : List Char × List Eff :=
  let tk := readToken cmd
  if tk.1 = "PLANT".data then
    match readInt3 tk.2 with
    | some a =>
      let p := PVZ.PutPlant m a.1 a.2.1 a.2.2.1
      if p.1 then ("OK\n".data, p.2) else ("ERR Invalid parameters\n".data, p.2)
    | none => ("ERR Invalid parameters\n".data, [])
  else if tk.1 = "SHOVEL".data then
    match readInt2 tk.2 with
    | some a =>
      let p := PVZ.Shovel m a.1 a.2.1
      if p.1 then ("OK\n".data, p.2) else ("ERR Invalid parameters\n".data, p.2)
    | none => ("ERR Invalid parameters\n".data, [])
  else if tk.1 = "FIRE".data then
    match readInt2 tk.2 with
    | some a =>
      let p := PVZ.FireCob m a.1 a.2.1
      if p.1 then ("OK\n".data, p.2) else ("ERR Invalid parameters\n".data, p.2)
    | none => ("ERR Invalid parameters\n".data, [])
  else if tk.1 = "RESET".data then
    let p := PVZ.MakeNewBoard m
    if p.1 then ("OK\n".data, p.2) else ("ERR Failed to reset\n".data, p.2)
  else if tk.1 = "ENTER".data then
    match readInt tk.2 with
    | some a =>
      let p := PVZ.EnterGame m a.1
      if p.1 then ("OK\n".data, p.2) else ("ERR Invalid parameters\n".data, p.2)
    | none => ("ERR Invalid parameters\n".data, [])
  else if tk.1 = "CHOOSE".data then
    match readInt tk.2 with
    | some a =>
      let p := PVZ.ChooseCard m a.1
      if p.1 then ("OK\n".data, p.2) else ("ERR Invalid parameters\n".data, p.2)
    | none => ("ERR Invalid parameters\n".data, [])
  else if tk.1 = "ROCK".data then
    let p := PVZ.Rock m
    if p.1 then ("OK\n".data, p.2) else ("ERR Failed to start\n".data, p.2)
  else if tk.1 = "BACK".data then
    let p := PVZ.BackToMain m
    if p.1 then ("OK\n".data, p.2) else ("ERR Failed to back\n".data, p.2)
  else if tk.1 = "STATE".data then
    let s := State.GetGameState m
    (s.1 ++ "\n".data, s.2)
  else ("ERR Unknown command\n".data, [])

/-- The verbs ProcessCommand recognises. -/
def knownVerbs : List (List Char) :=
  ["PLANT".data, "SHOVEL".data, "FIRE".data, "RESET".data, "ENTER".data,
   "CHOOSE".data, "ROCK".data, "STATE".data, "BACK".data]

/-- The newline-splitting loop of bridge.cpp ProcessCommands: the complete
lines of this read's data, in order; the trailing fragment after the last
newline is dropped, exactly as the local variable holding it goes out of
scope at the end of the tick. -/
def splitNl (acc : List Char) : List Char → List (List Char)
  | [] => []
  | c :: cs => if c = '\n' then acc :: splitNl [] cs else splitNl (acc ++ [c]) cs

/-- Strip one trailing carriage return, as ProcessCommands does. -/
def stripCr (l : List Char) : List Char :=
  if l.getLast? = some '\r' then l.dropLast else l

/-- Per-line dispatch of bridge.cpp ProcessCommands: strip the CR, skip
empty lines without responding, and otherwise send the response of
ProcessCommand for the line. -/
def respondLines (m : Mem) : List (List Char) → List (List Char) × List Eff
  | [] => ([], [])
  | line :: restLines =>
    let cmd := stripCr line
    if cmd = [] then respondLines m restLines
    else
      let r := ProcessCommand m cmd
      let rs := respondLines m restLines
      (r.1 :: rs.1, r.2 ++ rs.2)

/-- bridge.cpp ProcessCommands, restricted to one tick's received data:
the responses sent for that data. The source keeps the received bytes in
a local buffer, so nothing is carried to the next tick. -/
def ProcessCommands (m : Mem) (data : List Char) : List (List Char) × List Eff :=
  respondLines m (splitNl [] data)

end Bridge

namespace Hook

def GAME_LOOP_ADDR : Nat := 0x452650

/-- The interceptor state of dllmain.cpp: the target's code bytes, the
saved-bytes buffer g_originalBytes (only indices 0..4 are ever used), the
g_hooked flag, and the g_originalGameLoop function pointer (0 = null). -/
structure HookState where
  codeMem : Nat → Nat
  originalBytes : Nat → Nat
  hooked : Bool
  originalGameLoop : Nat

/-- The state at DLL load: statics zero-initialised, g_hooked false,
g_originalGameLoop null. -/
def initState (code : Nat → Nat) : HookState :=
  { codeMem := code, originalBytes := fun _ => 0, hooked := false, originalGameLoop := 0 }

/-- The 5-byte jmp written by InstallHook: opcode 0xE9 followed by the
little-endian bytes of the 32-bit relative offset to the hook entry. -/
def jumpCode (hookAddr : Nat) (i : Nat) : Nat :=
  if i = 0 then 0xE9
  else ((((hookAddr : Int) - (GAME_LOOP_ADDR : Int) - 5).emod 4294967296).toNat >>>
        (8 * (i - 1))) % 256

/-- dllmain.cpp InstallHook: a no-op returning true when already hooked;
otherwise save the 5 original bytes, overwrite them with the jmp, and set
g_hooked (memory-protection calls have no modelled effect). -/
def InstallHook (hookAddr : Nat) (s : HookState) : Bool × HookState :=
  if s.hooked then (true, s)
  else
    (true,
     { codeMem := fun a =>
         if GAME_LOOP_ADDR ≤ a ∧ a < GAME_LOOP_ADDR + 5 then jumpCode hookAddr (a - GAME_LOOP_ADDR)
         else s.codeMem a,
       originalBytes := fun i => s.codeMem (GAME_LOOP_ADDR + i),
       hooked := true,
       originalGameLoop := s.originalGameLoop })

/-- dllmain.cpp UninstallHook: a no-op when not hooked; otherwise copy the
5 saved bytes back and clear g_hooked. -/
def UninstallHook (s : HookState) : HookState :=
  if !s.hooked then s
  else
    { codeMem := fun a =>
        if GAME_LOOP_ADDR ≤ a ∧ a < GAME_LOOP_ADDR + 5 then s.originalBytes (a - GAME_LOOP_ADDR)
        else s.codeMem a,
      originalBytes := s.originalBytes,
      hooked := false,
      originalGameLoop := s.originalGameLoop }

/-- What one invocation of the per-tick entry point does. -/
inductive TickEvent where
  | bridgeWork : TickEvent
  | callOriginal : Nat → TickEvent
deriving DecidableEq, Repr

/-- dllmain.cpp HookedGameLoop: do the bridge work, then call the saved
original loop pointer only when it is non-null. -/
def HookedGameLoop (s : HookState) : List TickEvent :=
  TickEvent.bridgeWork ::
    (if s.originalGameLoop ≠ 0 then [TickEvent.callOriginal s.originalGameLoop] else [])

end Hook

/-! Concrete memories used by witnesses and counterexamples. -/

/-- Memory with the root static cell null: no simulation loaded. -/
def memNull : Mem :=
  { ptrAt := fun _ => 0, intAt := fun _ => 0, boolAt := fun _ => false }

/-- Memory where the base resolves to 0x1000 but the board slot is null,
while the UI word reads 3: only the board is unresolved. -/
def memBoardNull : Mem :=
  { ptrAt := fun a =>
      if a = Addr.BASE then 0x1000
      else if a = 0x1000 + Addr.GAME_UI then 3
      else 0,
    intAt := fun _ => 0, boolAt := fun _ => false }

/-- Memory with base 0x1000, board 0x2000, a plant array at 0x3000 of
declared capacity 1, whose single record is live at row 2, column 3. -/
def memPlant : Mem :=
  { ptrAt := fun a =>
      if a = Addr.BASE then 0x1000
      else if a = 0x1000 + Addr.MAIN_OBJECT then 0x2000
      else if a = 0x2000 + Addr.PLANT_ARRAY then 0x3000
      else 0,
    intAt := fun a =>
      if a = 0x2000 + Addr.PLANT_COUNT_MAX then 1
      else if a = 0x3000 + Addr.P_ROW then 2
      else if a = 0x3000 + Addr.P_COL then 3
      else 0,
    boolAt := fun _ => false }

/-- Memory with base 0x1000, board 0x2000, a plant array at 0x3000 whose
declared capacity 201 exceeds the 200 safety ceiling, every record live. -/
def memOverCap : Mem :=
  { ptrAt := fun a =>
      if a = Addr.BASE then 0x1000
      else if a = 0x1000 + Addr.MAIN_OBJECT then 0x2000
      else if a = 0x2000 + Addr.PLANT_ARRAY then 0x3000
      else 0,
    intAt := fun a => if a = 0x2000 + Addr.PLANT_COUNT_MAX then 201 else 0,
    boolAt := fun _ => false }

/-- Memory with base 0x1000, UI phase 2 (card selection), and a null seed
chooser slot. -/
def memCardSel : Mem :=
  { ptrAt := fun a =>
      if a = Addr.BASE then 0x1000
      else if a = 0x1000 + Addr.GAME_UI then 2
      else 0,
    intAt := fun _ => 0, boolAt := fun _ => false }

/-- Memory with base 0x1000 and board 0x2000 resolved but a null plant
array pointer. -/
def memArrNull : Mem :=
  { ptrAt := fun a =>
      if a = Addr.BASE then 0x1000
      else if a = 0x1000 + Addr.MAIN_OBJECT then 0x2000
      else 0,
    intAt := fun _ => 0, boolAt := fun _ => false }

/-- An uninstalled hook state over arbitrary nonzero code bytes. -/
def hookState0 : Hook.HookState :=
  Hook.initState (fun a => (a + 7) % 256)

/-- The record at index i of a plant array is live and positioned at the
given row and column — exactly the tests the Shovel scan applies. -/
def plantOk (m : Mem) (arr : Nat) (row col : Int) (i : Nat) : Bool :=
  !m.boolAt (arr + i * Addr.PLANT_SIZE + Addr.P_DEAD) &&
  (m.intAt (arr + i * Addr.PLANT_SIZE + Addr.P_ROW) == row) &&
  (m.intAt (arr + i * Addr.PLANT_SIZE + Addr.P_COL) == col)

/-! Helper lemmas. -/

theorem callsOf_nil : callsOf [] = [] := rfl

theorem callsOf_append (a b : List Eff) : callsOf (a ++ b) = callsOf a ++ callsOf b :=
  List.filter_append a b

theorem callsOf_read_cons (n : Nat) (t : List Eff) :
    callsOf (Eff.read n :: t) = callsOf t := by
  simp [callsOf, List.filter, isCall]

theorem callsOf_call_cons (f : Nat) (args : List Int) (t : List Eff) :
    callsOf (Eff.call f args :: t) = Eff.call f args :: callsOf t := by
  simp [callsOf, List.filter, isCall]

theorem splitNl_nil_of_no_newline :
    ∀ (data acc : List Char), (∀ c ∈ data, c ≠ '\n') → Bridge.splitNl acc data = [] := by
  intro data
  induction data with
  | nil => intro acc _; rfl
  | cons c cs ih =>
    intro acc h
    have hc : ¬(c = '\n') := h c (by simp)
    simp only [Bridge.splitNl, if_neg hc]
    exact ih _ (fun x hx => h x (by simp [hx]))

/-- The index scan of Shovel returns the address of the first index in
left-to-right order passing the live-and-matching test, and 0 when no
scanned index passes. -/
theorem shovelLoop_fst (m : Mem) (arr : Nat) (row col : Int) :
    ∀ (fuel i : Nat),
      (PVZ.shovelLoop m arr row col i fuel).1 =
        match (List.range' i fuel).find? (plantOk m arr row col) with
        | some j => arr + j * Addr.PLANT_SIZE
        | none => 0 := by
  intro fuel
  induction fuel with
  | zero => intro i; simp [PVZ.shovelLoop, List.range']
  | succ n ih =>
    intro i
    rw [List.range'_succ]
    by_cases hd : m.boolAt (arr + i * Addr.PLANT_SIZE + Addr.P_DEAD)
    · have hok : plantOk m arr row col i = false := by simp [plantOk, hd]
      rw [List.find?_cons_of_neg _ (by simp [hok])]
      simp only [PVZ.shovelLoop, hd, if_true]
      exact ih (i + 1)
    · by_cases hm : (m.intAt (arr + i * Addr.PLANT_SIZE + Addr.P_ROW) == row &&
                     m.intAt (arr + i * Addr.PLANT_SIZE + Addr.P_COL) == col) = true
      · have hok : plantOk m arr row col i = true := by
          simp only [plantOk, hd]; simpa using hm
        rw [List.find?_cons_of_pos _ hok]
        simp [PVZ.shovelLoop, hd, hm]
      · have hok : plantOk m arr row col i = false := by
          simp only [plantOk, hd]; simpa using hm
        rw [List.find?_cons_of_neg _ (by simp [hok])]
        simp only [PVZ.shovelLoop, hd, hm]
        simpa using ih (i + 1)

/-- The index scan of Shovel performs no external calls. -/
theorem shovelLoop_calls (m : Mem) (arr : Nat) (row col : Int) :
    ∀ (fuel i : Nat), callsOf (PVZ.shovelLoop m arr row col i fuel).2 = [] := by
  intro fuel
  induction fuel with
  | zero => intro i; rfl
  | succ n ih =>
    intro i
    by_cases hd : m.boolAt (arr + i * Addr.PLANT_SIZE + Addr.P_DEAD)
    · simp only [PVZ.shovelLoop, hd, if_true]
      rw [callsOf_read_cons]
      exact ih (i + 1)
    · by_cases hm : (m.intAt (arr + i * Addr.PLANT_SIZE + Addr.P_ROW) == row &&
                     m.intAt (arr + i * Addr.PLANT_SIZE + Addr.P_COL) == col) = true
      · simp only [PVZ.shovelLoop, hd, hm]
        simp [callsOf, List.filter, isCall]
      · simp only [PVZ.shovelLoop, hd, hm]
        simp only [Bool.false_eq_true, if_false]
        rw [callsOf_read_cons, callsOf_read_cons, callsOf_read_cons]
        exact ih (i + 1)

theorem head_append_eq (l₁ l₂ : List Eff) (a : Eff) (h : l₁.head? = some a) :
    (l₁ ++ l₂).head? = some a := by
  cases l₁ <;> simp_all

theorem getBoard_trace_head (m : Mem) :
    (PVZ.GetBoard m).2.head? = some (Eff.read Addr.BASE) := by
  by_cases hb : m.ptrAt Addr.BASE = 0 <;> simp [PVZ.GetBoard, PVZ.GetBase, hb]

theorem getGameUI_trace_head (m : Mem) :
    (PVZ.GetGameUI m).2.head? = some (Eff.read Addr.BASE) := by
  by_cases hb : m.ptrAt Addr.BASE = 0 <;> simp [PVZ.GetGameUI, PVZ.GetBase, hb]

theorem getSun_trace_head (m : Mem) :
    (PVZ.GetSun m).2.head? = some (Eff.read Addr.BASE) := by
  simp only [PVZ.GetSun]
  by_cases h : (PVZ.GetBoard m).1 = 0
  · rw [if_pos h]
    exact getBoard_trace_head m
  · rw [if_neg h]
    exact head_append_eq _ _ _ (getBoard_trace_head m)

theorem getWave_trace_head (m : Mem) :
    (PVZ.GetWave m).2.head? = some (Eff.read Addr.BASE) := by
  simp only [PVZ.GetWave]
  by_cases h : (PVZ.GetBoard m).1 = 0
  · rw [if_pos h]
    exact getBoard_trace_head m
  · rw [if_neg h]
    exact head_append_eq _ _ _ (getBoard_trace_head m)

theorem getScene_trace_head (m : Mem) :
    (PVZ.GetScene m).2.head? = some (Eff.read Addr.BASE) := by
  simp only [PVZ.GetScene]
  by_cases h : (PVZ.GetBoard m).1 = 0
  · rw [if_pos h]
    exact getBoard_trace_head m
  · rw [if_neg h]
    exact head_append_eq _ _ _ (getBoard_trace_head m)

/-! Claim theorems. -/

/-- C1: the claim says the hooked per-tick entry point always transfers to
the original game-loop path, so each tick runs the original loop body
exactly once. In the code g_originalGameLoop is initialised to null and
never assigned, so in the state reached by installing the hook from DLL
load, HookedGameLoop performs the bridge work and returns without ever
invoking the original loop. -/
theorem claim_C1_hook_skips_original (code : Nat → Nat) (hookAddr : Nat) :
    (Hook.InstallHook hookAddr (Hook.initState code)).2.hooked = true ∧
    Hook.HookedGameLoop (Hook.InstallHook hookAddr (Hook.initState code)).2 =
      [Hook.TickEvent.bridgeWork] := by
  simp [Hook.InstallHook, Hook.initState, Hook.HookedGameLoop]

/-- C2 counterexample: the command STATE split as "STA" then "TE\n" is
never reassembled — the first tick produces no response and retains
nothing, the second tick answers the fragment "TE" with ERR Unknown
command, which is not the response the complete command STATE produces. -/
theorem claim_C2_counterexample :
    Bridge.ProcessCommands memNull "STA".data = ([], []) ∧
    Bridge.ProcessCommands memNull "TE\n".data = (["ERR Unknown command\n".data], []) ∧
    (Bridge.ProcessCommand memNull "STATE".data).1 ≠ "ERR Unknown command\n".data :=
  ⟨by decide, by decide, by decide⟩

/-- C2 amended: ProcessCommands keeps no pending buffer between ticks; a
read whose data contains no newline produces no responses and no effects,
and its bytes are discarded when the tick ends, so a command line split
across two reads is never reassembled and the split command itself never
receives a response. -/
theorem claim_C2_amended (m : Mem) (data : List Char) (h : ∀ c ∈ data, c ≠ '\n') :
    Bridge.ProcessCommands m data = ([], []) := by
  unfold Bridge.ProcessCommands
  rw [splitNl_nil_of_no_newline data [] h]
  rfl

/-- C2 witness: the amended theorem at the prefix read "STA". -/
theorem claim_C2_witness :
    Bridge.ProcessCommands memNull "STA".data = ([], []) :=
  claim_C2_amended memNull "STA".data (by decide)

/-- C9: from an uninstalled state, InstallHook then UninstallHook restores
every code byte to its pre-install value and leaves the hook uninstalled;
UninstallHook while not installed is the identity; InstallHook while
already installed writes nothing and returns true. -/
theorem claim_C9_install_roundtrip (s : Hook.HookState) (hookAddr : Nat)
    (h : s.hooked = false) :
    (Hook.InstallHook hookAddr s).1 = true ∧
    (∀ a, (Hook.UninstallHook (Hook.InstallHook hookAddr s).2).codeMem a = s.codeMem a) ∧
    (Hook.UninstallHook (Hook.InstallHook hookAddr s).2).hooked = false ∧
    Hook.UninstallHook s = s ∧
    (∀ s2 : Hook.HookState, s2.hooked = true → Hook.InstallHook hookAddr s2 = (true, s2)) := by
  refine ⟨by simp [Hook.InstallHook, h], ?_, by simp [Hook.InstallHook, Hook.UninstallHook, h],
          by simp [Hook.UninstallHook, h], fun s2 h2 => by simp [Hook.InstallHook, h2]⟩
  intro a
  unfold Hook.InstallHook
  rw [h]
  simp only [Bool.false_eq_true, if_false]
  unfold Hook.UninstallHook
  simp only [Bool.not_true, Bool.false_eq_true, if_false]
  by_cases ha : Hook.GAME_LOOP_ADDR ≤ a ∧ a < Hook.GAME_LOOP_ADDR + 5
  · rw [if_pos ha]
    have e : Hook.GAME_LOOP_ADDR + (a - Hook.GAME_LOOP_ADDR) = a := by omega
    rw [e]
  · rw [if_neg ha, if_neg ha]

/-- C9 witness: the round trip at a concrete uninstalled state. -/
theorem claim_C9_witness :
    (Hook.UninstallHook (Hook.InstallHook 0x10000000 hookState0).2).codeMem
        Hook.GAME_LOOP_ADDR = hookState0.codeMem Hook.GAME_LOOP_ADDR ∧
    Hook.UninstallHook hookState0 = hookState0 ∧
    Hook.InstallHook 0x10000000 (Hook.InstallHook 0x10000000 hookState0).2 =
      (true, (Hook.InstallHook 0x10000000 hookState0).2) := by
  have h := claim_C9_install_roundtrip hookState0 0x10000000 rfl
  exact ⟨h.2.1 Hook.GAME_LOOP_ADDR, h.2.2.2.1, h.2.2.2.2 _ (by rfl)⟩

/-- C10: PutPlant performs no range validation — whenever the board
resolves it forwards arbitrary integer (row, col, type) unchecked to the
external placement routine and reports success, and the PLANT verb with
any three parsed integers answers OK. -/
theorem claim_C10_plant_unchecked (m : Mem) (hb : (PVZ.GetBoard m).1 ≠ 0) :
    (∀ row col type : Int,
      PVZ.PutPlant m row col type =
        (true, (PVZ.GetBoard m).2 ++
          [Eff.call Addr.FUNC_PUT_PLANT [((PVZ.GetBoard m).1 : Int), col, row, type, -1]])) ∧
    (∀ cmd rest rest2 (a b c : Int), Bridge.readToken cmd = ("PLANT".data, rest) →
      Bridge.readInt3 rest = some (a, b, c, rest2) →
      (Bridge.ProcessCommand m cmd).1 = "OK\n".data) := by
  constructor
  · intro row col type
    simp [PVZ.PutPlant, hb]
  · intro cmd rest rest2 a b c htok hint
    unfold Bridge.ProcessCommand
    rw [htok]
    simp only [hint]
    simp [PVZ.PutPlant, hb]

/-- C10 witness: PLANT with negative and out-of-grid integers answers OK. -/
theorem claim_C10_witness :
    PVZ.PutPlant memPlant (-5) 999 (-1) =
      (true, (PVZ.GetBoard memPlant).2 ++
        [Eff.call Addr.FUNC_PUT_PLANT [((PVZ.GetBoard memPlant).1 : Int), 999, -5, -1, -1]]) ∧
    (Bridge.ProcessCommand memPlant "PLANT -5 999 -1".data).1 = "OK\n".data := by
  have h := claim_C10_plant_unchecked memPlant (by decide)
  exact ⟨h.1 (-5) 999 (-1),
         h.2 "PLANT -5 999 -1".data " -5 999 -1".data [] (-5) 999 (-1)
           (by decide) (by decide)⟩

/-- C7: when the UI phase is not the card-selection phase (2), ChooseCard
and Rock fail without issuing any external call, and the bridge answers
CHOOSE with ERR Invalid parameters and ROCK with ERR Failed to start. -/
theorem claim_C7_phase_gate (m : Mem) (hui : (PVZ.GetGameUI m).1 ≠ 2) :
    (∀ t : Int, (PVZ.ChooseCard m t).1 = false ∧ callsOf (PVZ.ChooseCard m t).2 = []) ∧
    ((PVZ.Rock m).1 = false ∧ callsOf (PVZ.Rock m).2 = []) ∧
    (∀ cmd rest, Bridge.readToken cmd = ("CHOOSE".data, rest) →
      (Bridge.ProcessCommand m cmd).1 = "ERR Invalid parameters\n".data) ∧
    (∀ cmd rest, Bridge.readToken cmd = ("ROCK".data, rest) →
      (Bridge.ProcessCommand m cmd).1 = "ERR Failed to start\n".data) := by
  have hcc : ∀ t : Int, (PVZ.ChooseCard m t).1 = false ∧ callsOf (PVZ.ChooseCard m t).2 = [] := by
    intro t
    by_cases hb : m.ptrAt Addr.BASE = 0
    · simp [PVZ.ChooseCard, PVZ.GetBase, hb, callsOf, List.filter, isCall]
    · have hu : m.ptrAt (m.ptrAt Addr.BASE + Addr.GAME_UI) ≠ 2 := by
        simpa [PVZ.GetGameUI, PVZ.GetBase, hb] using hui
      simp [PVZ.ChooseCard, PVZ.GetBase, PVZ.GetGameUI, hb, hu, callsOf, List.filter, isCall]
  have hrk : (PVZ.Rock m).1 = false ∧ callsOf (PVZ.Rock m).2 = [] := by
    by_cases hb : m.ptrAt Addr.BASE = 0
    · simp [PVZ.Rock, PVZ.GetBase, hb, callsOf, List.filter, isCall]
    · have hu : m.ptrAt (m.ptrAt Addr.BASE + Addr.GAME_UI) ≠ 2 := by
        simpa [PVZ.GetGameUI, PVZ.GetBase, hb] using hui
      simp [PVZ.Rock, PVZ.GetBase, PVZ.GetGameUI, hb, hu, callsOf, List.filter, isCall]
  refine ⟨hcc, hrk, ?_, ?_⟩
  · intro cmd rest htok
    unfold Bridge.ProcessCommand
    rw [htok]
    cases hri : Bridge.readInt rest with
    | none => simp [hri]
    | some a => simp [hri, (hcc a.1).1]
  · intro cmd rest htok
    unfold Bridge.ProcessCommand
    rw [htok]
    simp [hrk.1]

/-- C7 witness: the phase gate at a memory whose UI phase reads 0. -/
theorem claim_C7_witness :
    (PVZ.ChooseCard memNull 1).1 = false ∧ callsOf (PVZ.ChooseCard memNull 1).2 = [] ∧
    (Bridge.ProcessCommand memNull "CHOOSE 1".data).1 = "ERR Invalid parameters\n".data ∧
    (Bridge.ProcessCommand memNull "ROCK".data).1 = "ERR Failed to start\n".data := by
  have h := claim_C7_phase_gate memNull (by decide)
  exact ⟨(h.1 1).1, (h.1 1).2,
         h.2.2.1 "CHOOSE 1".data " 1".data (by decide),
         h.2.2.2 "ROCK".data [] (by decide)⟩

set_option maxHeartbeats 2000000 in
/-- Every response ProcessCommand produces is newline-terminated. -/
theorem processCommand_ends_nl (m : Mem) (cmd : List Char) :
    ∃ pre, (Bridge.ProcessCommand m cmd).1 = pre ++ ['\n'] := by
  rcases htk : Bridge.readToken cmd with ⟨tok, rest⟩
  unfold Bridge.ProcessCommand
  rw [htk]
  by_cases h1 : tok = "PLANT".data
  · rcases hri : Bridge.readInt3 rest with _ | a
    · exact ⟨"ERR Invalid parameters".data, by simp [h1, hri]⟩
    · cases hp : (PVZ.PutPlant m a.1 a.2.1 a.2.2.1).1
      · exact ⟨"ERR Invalid parameters".data, by simp [h1, hri, hp]⟩
      · exact ⟨"OK".data, by simp [h1, hri, hp]⟩
  by_cases h2 : tok = "SHOVEL".data
  · rcases hri : Bridge.readInt2 rest with _ | a
    · exact ⟨"ERR Invalid parameters".data, by simp [h1, h2, hri]⟩
    · cases hp : (PVZ.Shovel m a.1 a.2.1).1
      · exact ⟨"ERR Invalid parameters".data, by simp [h1, h2, hri, hp]⟩
      · exact ⟨"OK".data, by simp [h1, h2, hri, hp]⟩
  by_cases h3 : tok = "FIRE".data
  · rcases hri : Bridge.readInt2 rest with _ | a
    · exact ⟨"ERR Invalid parameters".data, by simp [h1, h2, h3, hri]⟩
    · cases hp : (PVZ.FireCob m a.1 a.2.1).1
      · exact ⟨"ERR Invalid parameters".data, by simp [h1, h2, h3, hri, hp]⟩
      · exact ⟨"OK".data, by simp [h1, h2, h3, hri, hp]⟩
  by_cases h4 : tok = "RESET".data
  · cases hp : (PVZ.MakeNewBoard m).1
    · exact ⟨"ERR Failed to reset".data, by simp [h1, h2, h3, h4, hp]⟩
    · exact ⟨"OK".data, by simp [h1, h2, h3, h4, hp]⟩
  by_cases h5 : tok = "ENTER".data
  · rcases hri : Bridge.readInt rest with _ | a
    · exact ⟨"ERR Invalid parameters".data, by simp [h1, h2, h3, h4, h5, hri]⟩
    · cases hp : (PVZ.EnterGame m a.1).1
      · exact ⟨"ERR Invalid parameters".data, by simp [h1, h2, h3, h4, h5, hri, hp]⟩
      · exact ⟨"OK".data, by simp [h1, h2, h3, h4, h5, hri, hp]⟩
  by_cases h6 : tok = "CHOOSE".data
  · rcases hri : Bridge.readInt rest with _ | a
    · exact ⟨"ERR Invalid parameters".data, by simp [h1, h2, h3, h4, h5, h6, hri]⟩
    · cases hp : (PVZ.ChooseCard m a.1).1
      · exact ⟨"ERR Invalid parameters".data, by simp [h1, h2, h3, h4, h5, h6, hri, hp]⟩
      · exact ⟨"OK".data, by simp [h1, h2, h3, h4, h5, h6, hri, hp]⟩
  by_cases h7 : tok = "ROCK".data
  · cases hp : (PVZ.Rock m).1
    · exact ⟨"ERR Failed to start".data, by simp [h1, h2, h3, h4, h5, h6, h7, hp]⟩
    · exact ⟨"OK".data, by simp [h1, h2, h3, h4, h5, h6, h7, hp]⟩
  by_cases h8 : tok = "BACK".data
  · cases hp : (PVZ.BackToMain m).1
    · exact ⟨"ERR Failed to back".data, by simp [h1, h2, h3, h4, h5, h6, h7, h8, hp]⟩
    · exact ⟨"OK".data, by simp [h1, h2, h3, h4, h5, h6, h7, h8, hp]⟩
  by_cases h9 : tok = "STATE".data
  · exact ⟨(State.GetGameState m).1, by simp [h1, h2, h3, h4, h5, h6, h7, h8, h9]⟩
  · exact ⟨"ERR Unknown command".data, by simp [h1, h2, h3, h4, h5, h6, h7, h8, h9]⟩

/-- C3 counterexample: "STATE 1 2" is a known verb with an argument-count
mismatch (STATE takes no arguments), yet the bridge answers with the state
snapshot, not with a response beginning with ERR — extra arguments are
ignored, not rejected. -/
theorem claim_C3_counterexample :
    (Bridge.ProcessCommand memNull "STATE 1 2".data).1 = State.zeroSnapshot ++ ['\n'] ∧
    (Bridge.ProcessCommand memNull "STATE 1 2".data).1.take 3 ≠ "ERR".data :=
  ⟨by decide, by decide⟩

set_option maxHeartbeats 2000000 in
/-- C3 amended: every response is newline-terminated; a complete line
whose verb token is unknown receives exactly ERR Unknown command; a known
argument-taking verb whose required integer arguments are missing or fail
to parse receives ERR Invalid parameters; but extra tokens after the
required arguments are ignored rather than rejected (STATE with any
trailing text still returns the snapshot), and an empty line (after CR
stripping) receives no response at all. -/
theorem claim_C3_amended (m : Mem) (cmd : List Char) :
    (∃ pre, (Bridge.ProcessCommand m cmd).1 = pre ++ ['\n']) ∧
    (∀ tok rest, Bridge.readToken cmd = (tok, rest) →
      (tok ∉ Bridge.knownVerbs →
        (Bridge.ProcessCommand m cmd).1 = "ERR Unknown command\n".data) ∧
      (tok = "PLANT".data → Bridge.readInt3 rest = none →
        (Bridge.ProcessCommand m cmd).1 = "ERR Invalid parameters\n".data) ∧
      (tok = "SHOVEL".data → Bridge.readInt2 rest = none →
        (Bridge.ProcessCommand m cmd).1 = "ERR Invalid parameters\n".data) ∧
      (tok = "FIRE".data → Bridge.readInt2 rest = none →
        (Bridge.ProcessCommand m cmd).1 = "ERR Invalid parameters\n".data) ∧
      (tok = "ENTER".data → Bridge.readInt rest = none →
        (Bridge.ProcessCommand m cmd).1 = "ERR Invalid parameters\n".data) ∧
      (tok = "CHOOSE".data → Bridge.readInt rest = none →
        (Bridge.ProcessCommand m cmd).1 = "ERR Invalid parameters\n".data) ∧
      (tok = "STATE".data →
        (Bridge.ProcessCommand m cmd).1 = (State.GetGameState m).1 ++ ['\n'])) ∧
    (∀ lines, Bridge.respondLines m ([] :: lines) = Bridge.respondLines m lines) := by
  refine ⟨processCommand_ends_nl m cmd, ?_, ?_⟩
  · intro tok rest htok
    refine ⟨?_, ?_, ?_, ?_, ?_, ?_, ?_⟩
    · intro hnk
      have h1 : ¬(tok = "PLANT".data) := fun he => hnk (he ▸ (by decide))
      have h2 : ¬(tok = "SHOVEL".data) := fun he => hnk (he ▸ (by decide))
      have h3 : ¬(tok = "FIRE".data) := fun he => hnk (he ▸ (by decide))
      have h4 : ¬(tok = "RESET".data) := fun he => hnk (he ▸ (by decide))
      have h5 : ¬(tok = "ENTER".data) := fun he => hnk (he ▸ (by decide))
      have h6 : ¬(tok = "CHOOSE".data) := fun he => hnk (he ▸ (by decide))
      have h7 : ¬(tok = "ROCK".data) := fun he => hnk (he ▸ (by decide))
      have h8 : ¬(tok = "BACK".data) := fun he => hnk (he ▸ (by decide))
      have h9 : ¬(tok = "STATE".data) := fun he => hnk (he ▸ (by decide))
      unfold Bridge.ProcessCommand
      rw [htok]
      simp only [if_neg h1, if_neg h2, if_neg h3, if_neg h4, if_neg h5, if_neg h6,
                 if_neg h7, if_neg h8, if_neg h9]
    · intro he hparse
      subst he
      unfold Bridge.ProcessCommand
      rw [htok]
      simp [hparse]
    · intro he hparse
      subst he
      unfold Bridge.ProcessCommand
      rw [htok]
      simp [hparse]
    · intro he hparse
      subst he
      unfold Bridge.ProcessCommand
      rw [htok]
      simp [hparse]
    · intro he hparse
      subst he
      unfold Bridge.ProcessCommand
      rw [htok]
      simp [hparse]
    · intro he hparse
      subst he
      unfold Bridge.ProcessCommand
      rw [htok]
      simp [hparse]
    · intro he
      subst he
      unfold Bridge.ProcessCommand
      rw [htok]
      simp
  · intro lines
    simp [Bridge.respondLines, Bridge.stripCr]

/-- C3 witness: an unknown verb, a known verb with an unparsable argument,
and STATE with extra arguments, each through the amended theorem. -/
theorem claim_C3_witness :
    (Bridge.ProcessCommand memNull "FOO 1".data).1 = "ERR Unknown command\n".data ∧
    (Bridge.ProcessCommand memNull "PLANT 1 x".data).1 = "ERR Invalid parameters\n".data ∧
    (Bridge.ProcessCommand memNull "STATE 1 2".data).1 =
      (State.GetGameState memNull).1 ++ ['\n'] := by
  have hA := (claim_C3_amended memNull "FOO 1".data).2.1 "FOO".data " 1".data (by decide)
  have hB := (claim_C3_amended memNull "PLANT 1 x".data).2.1 "PLANT".data " 1 x".data (by decide)
  have hC := (claim_C3_amended memNull "STATE 1 2".data).2.1 "STATE".data " 1 2".data (by decide)
  exact ⟨hA.1 (by decide), hB.2.1 rfl (by decide), hC.2.2.2.2.2.2 rfl⟩

/-- C4 counterexample: in a memory where the base resolves but the board
slot is null while the UI word reads 3, the snapshot reports in_game true,
so the claimed all-zero-and-false snapshot is not returned even though the
root does not resolve (board null). -/
theorem claim_C4_counterexample :
    (PVZ.GetBoard memBoardNull).1 = 0 ∧
    (State.stateInfo memBoardNull).1.in_game = true ∧
    (State.GetGameState memBoardNull).1 ≠ State.zeroSnapshot :=
  ⟨by decide, by decide, by decide⟩

/-- C4 amended: when the base pointer is null, STATE returns exactly the
zeroed snapshot and dereferences only the root static cell (once per
getter); when the base resolves but the board slot is null, every numeric
field is zero and no board-derived address is dereferenced, but in_game is
read through the base's UI word and equals (ui == 3), so it can be true. -/
theorem claim_C4_amended (m : Mem) :
    (m.ptrAt Addr.BASE = 0 →
      State.GetGameState m = (State.zeroSnapshot,
        [Eff.read Addr.BASE, Eff.read Addr.BASE, Eff.read Addr.BASE,
         Eff.read Addr.BASE, Eff.read Addr.BASE])) ∧
    (m.ptrAt Addr.BASE ≠ 0 → m.ptrAt (m.ptrAt Addr.BASE + Addr.MAIN_OBJECT) = 0 →
      (State.stateInfo m).1 =
        { sun := 0, wave := 0, total_waves := 0, scene := 0, game_clock := 0,
          in_game := m.ptrAt (m.ptrAt Addr.BASE + Addr.GAME_UI) == 3,
          zombie_count := 0, plant_count := 0 } ∧
      (State.stateInfo m).2 =
        [Eff.read Addr.BASE, Eff.read (m.ptrAt Addr.BASE + Addr.MAIN_OBJECT),
         Eff.read Addr.BASE, Eff.read (m.ptrAt Addr.BASE + Addr.MAIN_OBJECT),
         Eff.read Addr.BASE, Eff.read (m.ptrAt Addr.BASE + Addr.MAIN_OBJECT),
         Eff.read Addr.BASE, Eff.read (m.ptrAt Addr.BASE + Addr.GAME_UI),
         Eff.read Addr.BASE, Eff.read (m.ptrAt Addr.BASE + Addr.MAIN_OBJECT)]) := by
  constructor
  · intro h
    simp [State.GetGameState, State.stateInfo, PVZ.GetSun, PVZ.GetWave, PVZ.GetScene,
          PVZ.IsInGame, PVZ.GetGameUI, PVZ.GetBoard, PVZ.GetBase, h]
    decide
  · intro hb h0
    constructor
    · simp [State.stateInfo, PVZ.GetSun, PVZ.GetWave, PVZ.GetScene,
            PVZ.IsInGame, PVZ.GetGameUI, PVZ.GetBoard, PVZ.GetBase, hb, h0]
    · simp [State.stateInfo, PVZ.GetSun, PVZ.GetWave, PVZ.GetScene,
            PVZ.IsInGame, PVZ.GetGameUI, PVZ.GetBoard, PVZ.GetBase, hb, h0]

/-- C4 witness: both amended cases at concrete memories. -/
theorem claim_C4_witness :
    State.GetGameState memNull = (State.zeroSnapshot,
      [Eff.read Addr.BASE, Eff.read Addr.BASE, Eff.read Addr.BASE,
       Eff.read Addr.BASE, Eff.read Addr.BASE]) ∧
    (State.stateInfo memBoardNull).1.in_game = true := by
  have h1 := (claim_C4_amended memNull).1 (by decide)
  have h2 := (claim_C4_amended memBoardNull).2 (by decide) (by decide)
  refine ⟨h1, ?_⟩
  rw [h2.1]
  decide

/-- C6 counterexample: with a declared plant capacity of 201 (above the
200 ceiling) and 200 live records among the first 200, STATE's plant
count is 0, not the live count over the first ceiling-many records the
claim requires. -/
theorem claim_C6_counterexample :
    memOverCap.intAt (0x2000 + Addr.PLANT_COUNT_MAX) = 201 ∧
    (State.countLive memOverCap 0x3000 Addr.PLANT_SIZE Addr.P_DEAD 0 200).1 = 200 ∧
    (State.stateInfo memOverCap).1.plant_count = 0 :=
  ⟨by decide, by decide, by decide⟩

/-- C6 amended: the Shovel scan clamps the declared capacity to the 200
ceiling before looping, so with capacity above 200 it scans exactly the
first 200 records; the STATE counts do not clamp — they iterate only when
the declared capacity is in (0, 200] and leave the count at zero when the
capacity exceeds the ceiling. -/
theorem claim_C6_amended (m : Mem) (row col : Int)
    (hb : (PVZ.GetBoard m).1 ≠ 0)
    (harr : m.ptrAt ((PVZ.GetBoard m).1 + Addr.PLANT_ARRAY) ≠ 0)
    (hcap : 200 < m.intAt ((PVZ.GetBoard m).1 + Addr.PLANT_COUNT_MAX)) :
    ((PVZ.Shovel m row col).1 =
      ((List.range 200).find?
        (plantOk m (m.ptrAt ((PVZ.GetBoard m).1 + Addr.PLANT_ARRAY)) row col)).isSome) ∧
    (State.stateInfo m).1.plant_count = 0 ∧
    (200 < m.intAt ((PVZ.GetBoard m).1 + State.ZOMBIE_COUNT_MAX) →
      (State.stateInfo m).1.zombie_count = 0) := by
  have hmin : (min (m.intAt ((PVZ.GetBoard m).1 + Addr.PLANT_COUNT_MAX)) 200).toNat = 200 := by
    have : min (m.intAt ((PVZ.GetBoard m).1 + Addr.PLANT_COUNT_MAX)) 200 = 200 :=
      min_eq_right (le_of_lt hcap)
    rw [this]
    rfl
  refine ⟨?_, ?_, ?_⟩
  · have hnotand : ¬(m.ptrAt ((PVZ.GetBoard m).1 + Addr.PLANT_ARRAY) = 0 ∨
        m.intAt ((PVZ.GetBoard m).1 + Addr.PLANT_COUNT_MAX) ≤ 0) := by
      push_neg
      exact ⟨harr, by omega⟩
    unfold PVZ.Shovel
    simp only [if_neg hb, if_neg hnotand]
    rw [hmin]
    rw [shovelLoop_fst m _ row col 200 0, List.range_eq_range']
    cases hf : (List.range' 0 200).find?
        (plantOk m (m.ptrAt ((PVZ.GetBoard m).1 + Addr.PLANT_ARRAY)) row col) with
    | none => simp [hf]
    | some j =>
      have : m.ptrAt ((PVZ.GetBoard m).1 + Addr.PLANT_ARRAY) + j * Addr.PLANT_SIZE ≠ 0 := by
        intro hc
        exact harr (by omega)
      simp [hf, this]
  · have hno : ¬(m.ptrAt ((PVZ.GetBoard m).1 + Addr.PLANT_ARRAY) ≠ 0 ∧
        0 < m.intAt ((PVZ.GetBoard m).1 + Addr.PLANT_COUNT_MAX) ∧
        m.intAt ((PVZ.GetBoard m).1 + Addr.PLANT_COUNT_MAX) ≤ 200) := by
      push_neg
      intro _ _
      omega
    unfold State.stateInfo
    simp only [hb, if_false, if_neg hb, hno, if_neg hno]
  · intro hz
    have hzno : ¬(m.ptrAt ((PVZ.GetBoard m).1 + State.ZOMBIE_ARRAY) ≠ 0 ∧
        0 < m.intAt ((PVZ.GetBoard m).1 + State.ZOMBIE_COUNT_MAX) ∧
        m.intAt ((PVZ.GetBoard m).1 + State.ZOMBIE_COUNT_MAX) ≤ 200) := by
      push_neg
      intro _ _
      omega
    unfold State.stateInfo
    simp only [hb, if_false, if_neg hb, hzno, if_neg hzno]

/-- C5: with the board, plant array and a positive declared capacity
resolved, SHOVEL scans the plant array in array order skipping dead
records; when some scanned index is live and matches (row, col), the
first such index wins, Shovel invokes the removal routine on exactly that
record's address and the bridge answers OK; when no scanned record
matches, Shovel fails, no external routine is invoked, and the bridge
answers ERR Invalid parameters. -/
theorem claim_C5_shovel_first_match (m : Mem) (row col : Int)
    (hb : (PVZ.GetBoard m).1 ≠ 0)
    (harr : m.ptrAt ((PVZ.GetBoard m).1 + Addr.PLANT_ARRAY) ≠ 0)
    (hmax : 0 < m.intAt ((PVZ.GetBoard m).1 + Addr.PLANT_COUNT_MAX)) :
    (∀ j, (List.range (min (m.intAt ((PVZ.GetBoard m).1 + Addr.PLANT_COUNT_MAX)) 200).toNat).find?
          (plantOk m (m.ptrAt ((PVZ.GetBoard m).1 + Addr.PLANT_ARRAY)) row col) = some j →
      (PVZ.Shovel m row col).1 = true ∧
      callsOf (PVZ.Shovel m row col).2 =
        [Eff.call Addr.FUNC_SHOVEL
          [((m.ptrAt ((PVZ.GetBoard m).1 + Addr.PLANT_ARRAY) + j * Addr.PLANT_SIZE : Nat) : Int)]] ∧
      (∀ cmd rest rest2, Bridge.readToken cmd = ("SHOVEL".data, rest) →
        Bridge.readInt2 rest = some (row, col, rest2) →
        (Bridge.ProcessCommand m cmd).1 = "OK\n".data)) ∧
    ((List.range (min (m.intAt ((PVZ.GetBoard m).1 + Addr.PLANT_COUNT_MAX)) 200).toNat).find?
          (plantOk m (m.ptrAt ((PVZ.GetBoard m).1 + Addr.PLANT_ARRAY)) row col) = none →
      (PVZ.Shovel m row col).1 = false ∧
      callsOf (PVZ.Shovel m row col).2 = [] ∧
      (∀ cmd rest rest2, Bridge.readToken cmd = ("SHOVEL".data, rest) →
        Bridge.readInt2 rest = some (row, col, rest2) →
        (Bridge.ProcessCommand m cmd).1 = "ERR Invalid parameters\n".data)) := by
  have hbase : m.ptrAt Addr.BASE ≠ 0 := by
    intro h
    exact hb (by simp [PVZ.GetBoard, PVZ.GetBase, h])
  have hgb2 : (PVZ.GetBoard m).2 =
      [Eff.read Addr.BASE, Eff.read (m.ptrAt Addr.BASE + Addr.MAIN_OBJECT)] := by
    simp [PVZ.GetBoard, PVZ.GetBase, hbase]
  have hnotand : ¬(m.ptrAt ((PVZ.GetBoard m).1 + Addr.PLANT_ARRAY) = 0 ∨
      m.intAt ((PVZ.GetBoard m).1 + Addr.PLANT_COUNT_MAX) ≤ 0) := by
    push_neg
    exact ⟨harr, by omega⟩
  constructor
  · intro j hj
    rw [List.range_eq_range'] at hj
    have hne : m.ptrAt ((PVZ.GetBoard m).1 + Addr.PLANT_ARRAY) + j * Addr.PLANT_SIZE ≠ 0 := by
      intro hc
      exact harr (by omega)
    have hfst : (PVZ.Shovel m row col).1 = true := by
      unfold PVZ.Shovel
      simp only [if_neg hb, if_neg hnotand]
      rw [shovelLoop_fst, hj]
      simp [hne]
    refine ⟨hfst, ?_, ?_⟩
    · unfold PVZ.Shovel
      simp only [if_neg hb, if_neg hnotand]
      rw [shovelLoop_fst, hj]
      simp only [hne, if_neg hne]
      simp [callsOf_append, hgb2, shovelLoop_calls, callsOf_read_cons, callsOf_call_cons,
            callsOf_nil]
    · intro cmd rest rest2 htok hri
      unfold Bridge.ProcessCommand
      rw [htok]
      simp [hri, hfst]
  · intro hn
    rw [List.range_eq_range'] at hn
    have hfst : (PVZ.Shovel m row col).1 = false := by
      unfold PVZ.Shovel
      simp only [if_neg hb, if_neg hnotand]
      rw [shovelLoop_fst, hn]
      simp
    refine ⟨hfst, ?_, ?_⟩
    · unfold PVZ.Shovel
      simp only [if_neg hb, if_neg hnotand]
      rw [shovelLoop_fst, hn]
      simp [callsOf_append, hgb2, shovelLoop_calls, callsOf_read_cons, callsOf_call_cons,
            callsOf_nil]
    · intro cmd rest rest2 htok hri
      unfold Bridge.ProcessCommand
      rw [htok]
      simp [hri, hfst]

/-- C5 witness: a single live plant at (2, 3) is found and removed, and a
scan with no match fails; both through the bridge. -/
theorem claim_C5_witness :
    (PVZ.Shovel memPlant 2 3).1 = true ∧
    callsOf (PVZ.Shovel memPlant 2 3).2 = [Eff.call Addr.FUNC_SHOVEL [(0x3000 : Int)]] ∧
    (Bridge.ProcessCommand memPlant "SHOVEL 2 3".data).1 = "OK\n".data ∧
    (PVZ.Shovel memPlant 9 9).1 = false ∧
    callsOf (PVZ.Shovel memPlant 9 9).2 = [] ∧
    (Bridge.ProcessCommand memPlant "SHOVEL 9 9".data).1 = "ERR Invalid parameters\n".data := by
  have h1 := (claim_C5_shovel_first_match memPlant 2 3 (by decide) (by decide) (by decide)).1
    0 (by decide)
  have h2 := (claim_C5_shovel_first_match memPlant 9 9 (by decide) (by decide) (by decide)).2
    (by decide)
  refine ⟨h1.1, ?_, h1.2.2 "SHOVEL 2 3".data " 2 3".data [] (by decide) (by decide),
          h2.1, h2.2.1, h2.2.2 "SHOVEL 9 9".data " 9 9".data [] (by decide) (by decide)⟩
  have := h1.2.1
  simpa using this

/-- C6 witness: the amended theorem at the over-capacity memory. -/
theorem claim_C6_witness :
    ((PVZ.Shovel memOverCap 2 3).1 =
      ((List.range 200).find?
        (plantOk memOverCap (memOverCap.ptrAt ((PVZ.GetBoard memOverCap).1 + Addr.PLANT_ARRAY))
          2 3)).isSome) ∧
    (State.stateInfo memOverCap).1.plant_count = 0 := by
  have h := claim_C6_amended memOverCap 2 3 (by decide) (by decide) (by decide)
  exact ⟨h.1, h.2.1⟩

/-- C8: every action and query operation re-resolves the chain from the
root static cell on each invocation (its dereference trace begins with the
root read), and each intermediate pointer — base, board, plant array,
seed chooser — is null-checked before the next dereference: with a null
base every operation returns its failure or zero result having read only
the root cell and issued no call; with a null board the board-dependent
operations fail soft having read only the root and board slots; with a
null plant array Shovel fails before any record read; with a null seed
chooser in card-selection phase ChooseCard and Rock fail without any
external call. -/
theorem claim_C8_reresolve_null_safe (m : Mem) :
    ((PVZ.GetBoard m).2.head? = some (Eff.read Addr.BASE) ∧
     (PVZ.GetGameUI m).2.head? = some (Eff.read Addr.BASE) ∧
     (PVZ.GetSun m).2.head? = some (Eff.read Addr.BASE) ∧
     (PVZ.GetWave m).2.head? = some (Eff.read Addr.BASE) ∧
     (PVZ.GetScene m).2.head? = some (Eff.read Addr.BASE) ∧
     (PVZ.IsInGame m).2.head? = some (Eff.read Addr.BASE) ∧
     (PVZ.IsZombieInHouse m).2.head? = some (Eff.read Addr.BASE) ∧
     (∀ r c t : Int, (PVZ.PutPlant m r c t).2.head? = some (Eff.read Addr.BASE)) ∧
     (∀ r c : Int, (PVZ.Shovel m r c).2.head? = some (Eff.read Addr.BASE)) ∧
     (∀ t : Int, (PVZ.ChooseCard m t).2.head? = some (Eff.read Addr.BASE)) ∧
     (PVZ.Rock m).2.head? = some (Eff.read Addr.BASE) ∧
     (PVZ.MakeNewBoard m).2.head? = some (Eff.read Addr.BASE) ∧
     (∀ md : Int, (PVZ.EnterGame m md).2.head? = some (Eff.read Addr.BASE)) ∧
     (PVZ.BackToMain m).2.head? = some (Eff.read Addr.BASE) ∧
     (State.stateInfo m).2.head? = some (Eff.read Addr.BASE)) ∧
    (m.ptrAt Addr.BASE = 0 →
      PVZ.GetBoard m = (0, [Eff.read Addr.BASE]) ∧
      PVZ.GetGameUI m = (0, [Eff.read Addr.BASE]) ∧
      PVZ.GetSun m = (0, [Eff.read Addr.BASE]) ∧
      PVZ.GetWave m = (0, [Eff.read Addr.BASE]) ∧
      PVZ.GetScene m = (0, [Eff.read Addr.BASE]) ∧
      PVZ.IsInGame m = (false, [Eff.read Addr.BASE]) ∧
      PVZ.IsZombieInHouse m = (false, [Eff.read Addr.BASE]) ∧
      (∀ r c t : Int, PVZ.PutPlant m r c t = (false, [Eff.read Addr.BASE])) ∧
      (∀ r c : Int, PVZ.Shovel m r c = (false, [Eff.read Addr.BASE])) ∧
      (∀ t : Int, PVZ.ChooseCard m t = (false, [Eff.read Addr.BASE])) ∧
      PVZ.Rock m = (false, [Eff.read Addr.BASE]) ∧
      PVZ.MakeNewBoard m = (false, [Eff.read Addr.BASE]) ∧
      (∀ md : Int, PVZ.EnterGame m md = (false, [Eff.read Addr.BASE])) ∧
      PVZ.BackToMain m = (false, [Eff.read Addr.BASE])) ∧
    (m.ptrAt Addr.BASE ≠ 0 → m.ptrAt (m.ptrAt Addr.BASE + Addr.MAIN_OBJECT) = 0 →
      PVZ.GetSun m =
        (0, [Eff.read Addr.BASE, Eff.read (m.ptrAt Addr.BASE + Addr.MAIN_OBJECT)]) ∧
      PVZ.GetWave m =
        (0, [Eff.read Addr.BASE, Eff.read (m.ptrAt Addr.BASE + Addr.MAIN_OBJECT)]) ∧
      PVZ.GetScene m =
        (0, [Eff.read Addr.BASE, Eff.read (m.ptrAt Addr.BASE + Addr.MAIN_OBJECT)]) ∧
      PVZ.IsZombieInHouse m =
        (false, [Eff.read Addr.BASE, Eff.read (m.ptrAt Addr.BASE + Addr.MAIN_OBJECT)]) ∧
      (∀ r c t : Int, PVZ.PutPlant m r c t =
        (false, [Eff.read Addr.BASE, Eff.read (m.ptrAt Addr.BASE + Addr.MAIN_OBJECT)])) ∧
      (∀ r c : Int, PVZ.Shovel m r c =
        (false, [Eff.read Addr.BASE, Eff.read (m.ptrAt Addr.BASE + Addr.MAIN_OBJECT)]))) ∧
    (m.ptrAt Addr.BASE ≠ 0 → m.ptrAt (m.ptrAt Addr.BASE + Addr.MAIN_OBJECT) ≠ 0 →
      m.ptrAt (m.ptrAt (m.ptrAt Addr.BASE + Addr.MAIN_OBJECT) + Addr.PLANT_ARRAY) = 0 →
      (∀ r c : Int, PVZ.Shovel m r c =
        (false,
         [Eff.read Addr.BASE, Eff.read (m.ptrAt Addr.BASE + Addr.MAIN_OBJECT),
          Eff.read (m.ptrAt (m.ptrAt Addr.BASE + Addr.MAIN_OBJECT) + Addr.PLANT_ARRAY),
          Eff.read (m.ptrAt (m.ptrAt Addr.BASE + Addr.MAIN_OBJECT) + Addr.PLANT_COUNT_MAX)]))) ∧
    (m.ptrAt Addr.BASE ≠ 0 → m.ptrAt (m.ptrAt Addr.BASE + Addr.GAME_UI) = 2 →
      m.ptrAt (m.ptrAt Addr.BASE + Addr.SEED_CHOOSER) = 0 →
      (∀ t : Int, PVZ.ChooseCard m t =
        (false,
         [Eff.read Addr.BASE, Eff.read Addr.BASE,
          Eff.read (m.ptrAt Addr.BASE + Addr.GAME_UI),
          Eff.read (m.ptrAt Addr.BASE + Addr.SEED_CHOOSER)])) ∧
      PVZ.Rock m =
        (false,
         [Eff.read Addr.BASE, Eff.read Addr.BASE,
          Eff.read (m.ptrAt Addr.BASE + Addr.GAME_UI),
          Eff.read (m.ptrAt Addr.BASE + Addr.SEED_CHOOSER)])) := by
  refine ⟨⟨getBoard_trace_head m, getGameUI_trace_head m, getSun_trace_head m,
           getWave_trace_head m, getScene_trace_head m, ?_, ?_, ?_, ?_, ?_, ?_, ?_, ?_, ?_, ?_⟩,
          ?_, ?_, ?_, ?_⟩
  · simp only [PVZ.IsInGame]
    exact getGameUI_trace_head m
  · simp only [PVZ.IsZombieInHouse]
    by_cases h : (PVZ.GetBoard m).1 = 0
    · rw [if_pos h]
      exact getBoard_trace_head m
    · rw [if_neg h]
      exact getBoard_trace_head m
  · intro r c t
    simp only [PVZ.PutPlant]
    by_cases h : (PVZ.GetBoard m).1 = 0
    · rw [if_pos h]
      exact getBoard_trace_head m
    · rw [if_neg h]
      exact head_append_eq _ _ _ (getBoard_trace_head m)
  · intro r c
    simp only [PVZ.Shovel]
    by_cases h : (PVZ.GetBoard m).1 = 0
    · rw [if_pos h]
      exact getBoard_trace_head m
    · rw [if_neg h]
      by_cases h2 : m.ptrAt ((PVZ.GetBoard m).1 + Addr.PLANT_ARRAY) = 0 ∨
          m.intAt ((PVZ.GetBoard m).1 + Addr.PLANT_COUNT_MAX) ≤ 0
      · rw [if_pos h2]
        exact head_append_eq _ _ _ (getBoard_trace_head m)
      · rw [if_neg h2]
        by_cases h3 : (PVZ.shovelLoop m (m.ptrAt ((PVZ.GetBoard m).1 + Addr.PLANT_ARRAY)) r c 0
            (min (m.intAt ((PVZ.GetBoard m).1 + Addr.PLANT_COUNT_MAX)) 200).toNat).1 = 0
        · rw [if_pos h3, List.append_assoc]
          exact head_append_eq _ _ _ (getBoard_trace_head m)
        · rw [if_neg h3, List.append_assoc, List.append_assoc]
          exact head_append_eq _ _ _ (getBoard_trace_head m)
  · intro t
    by_cases hb : m.ptrAt Addr.BASE = 0
    · simp [PVZ.ChooseCard, PVZ.GetBase, PVZ.GetGameUI, hb]
    · simp only [PVZ.ChooseCard, PVZ.GetBase, PVZ.GetGameUI, if_neg hb]
      split_ifs <;> simp
  · by_cases hb : m.ptrAt Addr.BASE = 0
    · simp [PVZ.Rock, PVZ.GetBase, PVZ.GetGameUI, hb]
    · simp only [PVZ.Rock, PVZ.GetBase, PVZ.GetGameUI, if_neg hb]
      split_ifs <;> simp
  · by_cases hb : m.ptrAt Addr.BASE = 0
    · simp [PVZ.MakeNewBoard, PVZ.GetBase, hb]
    · simp [PVZ.MakeNewBoard, PVZ.GetBase, hb]
  · intro md
    by_cases hb : m.ptrAt Addr.BASE = 0
    · simp [PVZ.EnterGame, PVZ.GetBase, hb]
    · simp [PVZ.EnterGame, PVZ.GetBase, hb]
  · by_cases hb : m.ptrAt Addr.BASE = 0
    · simp [PVZ.BackToMain, PVZ.GetBase, PVZ.GetGameUI, hb]
    · simp only [PVZ.BackToMain, PVZ.GetBase, PVZ.GetGameUI, if_neg hb]
      split_ifs <;> simp
  · simp only [State.stateInfo]
    by_cases h : (PVZ.GetBoard m).1 = 0
    · rw [if_pos h]
      simp only [List.append_assoc]
      exact head_append_eq _ _ _ (getSun_trace_head m)
    · rw [if_neg h]
      simp only [List.append_assoc]
      exact head_append_eq _ _ _ (getSun_trace_head m)
  · intro h
    refine ⟨?_, ?_, ?_, ?_, ?_, ?_, ?_, ?_, ?_, ?_, ?_, ?_, ?_, ?_⟩ <;>
      (intros;
       simp [PVZ.GetBoard, PVZ.GetBase, PVZ.GetGameUI, PVZ.GetSun, PVZ.GetWave, PVZ.GetScene,
             PVZ.IsInGame, PVZ.IsZombieInHouse, PVZ.PutPlant, PVZ.Shovel, PVZ.ChooseCard,
             PVZ.Rock, PVZ.MakeNewBoard, PVZ.EnterGame, PVZ.BackToMain, h])
  · intro hb h0
    refine ⟨?_, ?_, ?_, ?_, ?_, ?_⟩ <;>
      (intros;
       simp [PVZ.GetBoard, PVZ.GetBase, PVZ.GetSun, PVZ.GetWave, PVZ.GetScene,
             PVZ.IsZombieInHouse, PVZ.PutPlant, PVZ.Shovel, hb, h0])
  · intro hb hbd harr
    intro r c
    simp [PVZ.Shovel, PVZ.GetBoard, PVZ.GetBase, hb, hbd, harr]
  · intro hb hui hsc
    constructor
    · intro t
      simp [PVZ.ChooseCard, PVZ.GetBase, PVZ.GetGameUI, hb, hui, hsc]
    · simp [PVZ.Rock, PVZ.GetBase, PVZ.GetGameUI, hb, hui, hsc]

/-- C8 witness: the null-safety cases at concrete memories — null base,
null board, null plant array, and null seed chooser in phase 2. -/
theorem claim_C8_witness :
    (PVZ.GetSun memNull).2.head? = some (Eff.read Addr.BASE) ∧
    PVZ.Shovel memNull 1 1 = (false, [Eff.read Addr.BASE]) ∧
    PVZ.GetSun memBoardNull =
      (0, [Eff.read Addr.BASE, Eff.read (memBoardNull.ptrAt Addr.BASE + Addr.MAIN_OBJECT)]) ∧
    PVZ.Shovel memArrNull 1 1 =
      (false,
       [Eff.read Addr.BASE, Eff.read (memArrNull.ptrAt Addr.BASE + Addr.MAIN_OBJECT),
        Eff.read (memArrNull.ptrAt (memArrNull.ptrAt Addr.BASE + Addr.MAIN_OBJECT) +
          Addr.PLANT_ARRAY),
        Eff.read (memArrNull.ptrAt (memArrNull.ptrAt Addr.BASE + Addr.MAIN_OBJECT) +
          Addr.PLANT_COUNT_MAX)]) ∧
    PVZ.ChooseCard memCardSel 1 =
      (false,
       [Eff.read Addr.BASE, Eff.read Addr.BASE,
        Eff.read (memCardSel.ptrAt Addr.BASE + Addr.GAME_UI),
        Eff.read (memCardSel.ptrAt Addr.BASE + Addr.SEED_CHOOSER)]) := by
  refine ⟨(claim_C8_reresolve_null_safe memNull).1.2.2.1, ?_, ?_, ?_, ?_⟩
  · exact ((claim_C8_reresolve_null_safe memNull).2.1
      (by decide)).2.2.2.2.2.2.2.2.1 1 1
  · exact ((claim_C8_reresolve_null_safe memBoardNull).2.2.1 (by decide) (by decide)).1
  · exact (claim_C8_reresolve_null_safe memArrNull).2.2.2.1 (by decide) (by decide) (by decide) 1 1
  · exact ((claim_C8_reresolve_null_safe memCardSel).2.2.2.2
      (by decide) (by decide) (by decide)).1 1
